import Mathlib

/-!
Verification of the multi-round inference round controller from
`tutorials/03_multiround_inference.ipynb`.

The notebook chains calls into an external simulation-based-inference library
(`SNPE`, `simulate_for_sbi`, `append_simulations`, `train`, `build_posterior`,
`set_default_x`).  The library is opaque; the bespoke code is the round loop

    posteriors = []
    proposal = prior
    for _ in range(num_rounds):
        theta, x = simulate_for_sbi(simulator, proposal, num_simulations=500)
        density_estimator = inference.append_simulations(
            theta, x, proposal=proposal
        ).train()
        posterior = inference.build_posterior(density_estimator)
        posteriors.append(posterior)
        proposal = posterior.set_default_x(x_o)

We embed this loop shallowly: the external library is an abstract record of
pure functions threading an explicit random-number-generator state; the loop
state carries the mutable variables of the Python code (`posteriors`,
`proposal`, the inference object's accumulated dataset, the RNG) together
with ghost traces recording, per round, the proposal passed to
`simulate_for_sbi`, the density estimator returned by `train`, and the exact
dataset on which `train` was called.  Batches are lists, so a batch of
`num_simulations` parameter vectors is a list of that length.
-/

namespace MultiRound

/-- Abstract interface of the external sbi library, as the notebook uses it.
`Dist` is the type of distribution objects (the prior and conditioned
posteriors), `Model` the trained density estimators, `Post` the posterior
objects, `P` a single parameter vector, `XT` a single observation, `RNG` the
random-generator state.  `simulate_for_sbi` draws a parameter batch from a
distribution and simulates a matching observation batch; `train` fits a
density estimator on the accumulated `(theta, x, proposal)` records;
`build_posterior` wraps a trained model; `set_default_x` conditions a
posterior on an observation, yielding a distribution usable as a proposal. -/
structure SBILibrary (Dist Model Post P XT RNG : Type) where
  simulate_for_sbi : Dist → Nat → RNG → (List P × List XT) × RNG
  train : List (List P × List XT × Dist) → RNG → Model × RNG
  build_posterior : Model → Post
  set_default_x : Post → XT → Dist

/-- State of the round-controller loop: the Python variables plus ghost
traces.  `dataset` is the inference object's accumulated data; `posteriors`
the result list; `proposal` the current proposal variable; `rng` the RNG
state; `proposalsUsed` records the proposal passed to `simulate_for_sbi` in
each round, `models` the density estimator trained in each round,
`trainedOn` the dataset each round's `train()` call ran over, and
`iterations` counts completed loop iterations. -/
structure LoopState (Dist Model Post P XT RNG : Type) where
  dataset : List (List P × List XT × Dist)
  posteriors : List Post
  proposalsUsed : List Dist
  models : List Model
  trainedOn : List (List (List P × List XT × Dist))
  proposal : Dist
  rng : RNG
  iterations : Nat

variable {Dist Model Post P XT RNG : Type}

/-- `inference.append_simulations(theta, x, proposal=proposal)`: the new
round record is appended to the accumulated dataset; nothing is discarded. -/
def append_simulations (dataset : List (List P × List XT × Dist))
    (theta : List P) (x : List XT) (proposal : Dist) :
    List (List P × List XT × Dist) :=
  dataset ++ [(theta, x, proposal)]

/-- The `simulate_for_sbi` call of one round: the current proposal and RNG
state feed the library sampler. -/
def simOut (L : SBILibrary Dist Model Post P XT RNG) (ns : Nat)
    (s : LoopState Dist Model Post P XT RNG) : (List P × List XT) × RNG :=
  L.simulate_for_sbi s.proposal ns s.rng

/-- The round record `(theta, x, proposal)` stored by the current round:
the sampled parameter batch, its simulated observation batch, and the
proposal they were drawn from. -/
def roundRecord (L : SBILibrary Dist Model Post P XT RNG) (ns : Nat)
    (s : LoopState Dist Model Post P XT RNG) : List P × List XT × Dist :=
  ((simOut L ns s).1.1, (simOut L ns s).1.2, s.proposal)

/-- The accumulated dataset after the current round's
`append_simulations`. -/
def newDataset (L : SBILibrary Dist Model Post P XT RNG) (ns : Nat)
    (s : LoopState Dist Model Post P XT RNG) : List (List P × List XT × Dist) :=
  append_simulations s.dataset (simOut L ns s).1.1 (simOut L ns s).1.2 s.proposal

/-- The `train()` call of the current round: it runs over the full
accumulated dataset and returns the density estimator and the new RNG
state. -/
def newModel (L : SBILibrary Dist Model Post P XT RNG) (ns : Nat)
    (s : LoopState Dist Model Post P XT RNG) : Model × RNG :=
  L.train (newDataset L ns s) (simOut L ns s).2

/-- The posterior built from the density estimator trained this round. -/
def newPosterior (L : SBILibrary Dist Model Post P XT RNG) (ns : Nat)
    (s : LoopState Dist Model Post P XT RNG) : Post :=
  L.build_posterior (newModel L ns s).1

/-- One iteration of the round loop, in the notebook's statement order:
simulate from the current proposal, append the simulations, train on the
full accumulated dataset, build the posterior, append it to `posteriors`,
and only then reassign `proposal` to the posterior conditioned on `xo`. -/
def step (L : SBILibrary Dist Model Post P XT RNG) (xo : XT) (ns : Nat)
    (s : LoopState Dist Model Post P XT RNG) : LoopState Dist Model Post P XT RNG :=
  { dataset := newDataset L ns s
    posteriors := s.posteriors ++ [newPosterior L ns s]
    proposalsUsed := s.proposalsUsed ++ [s.proposal]
    models := s.models ++ [(newModel L ns s).1]
    trainedOn := s.trainedOn ++ [newDataset L ns s]
    proposal := L.set_default_x (newPosterior L ns s) xo
    rng := (newModel L ns s).2
    iterations := s.iterations + 1 }

/-- The loop's initial state: `posteriors = []`, `proposal = prior`, the
inference object holds no data yet. -/
def initState (prior : Dist) (seed : RNG) : LoopState Dist Model Post P XT RNG :=
  { dataset := []
    posteriors := []
    proposalsUsed := []
    models := []
    trainedOn := []
    proposal := prior
    rng := seed
    iterations := 0 }

/-- `for _ in range(n)`: run `n` iterations of the round loop. -/
def runRounds (L : SBILibrary Dist Model Post P XT RNG) (xo : XT) (ns : Nat) :
    Nat → LoopState Dist Model Post P XT RNG → LoopState Dist Model Post P XT RNG
  | 0, s => s
  | n + 1, s => runRounds L xo ns n (step L xo ns s)

/-- The loop state after `n` completed rounds, starting from the prior. -/
def stateAt (L : SBILibrary Dist Model Post P XT RNG) (xo : XT) (ns : Nat)
    (prior : Dist) (seed : RNG) (n : Nat) : LoopState Dist Model Post P XT RNG :=
  runRounds L xo ns n (initState prior seed)

theorem runRounds_step_comm (L : SBILibrary Dist Model Post P XT RNG) (xo : XT)
    (ns n : Nat) (s : LoopState Dist Model Post P XT RNG) :
    runRounds L xo ns n (step L xo ns s) = step L xo ns (runRounds L xo ns n s) := by
  induction n generalizing s with
  | zero => rfl
  | succ n ih =>
    show runRounds L xo ns n (step L xo ns (step L xo ns s)) = _
    rw [ih]
    rfl

theorem stateAt_succ (L : SBILibrary Dist Model Post P XT RNG) (xo : XT)
    (ns : Nat) (prior : Dist) (seed : RNG) (n : Nat) :
    stateAt L xo ns prior seed (n + 1) = step L xo ns (stateAt L xo ns prior seed n) := by
  unfold stateAt
  show runRounds L xo ns n (step L xo ns (initState prior seed)) = _
  rw [runRounds_step_comm]

theorem stateAt_zero (L : SBILibrary Dist Model Post P XT RNG) (xo : XT)
    (ns : Nat) (prior : Dist) (seed : RNG) :
    stateAt L xo ns prior seed 0 = initState prior seed := rfl

section Traces

variable (L : SBILibrary Dist Model Post P XT RNG) (xo : XT) (ns : Nat)
variable (prior : Dist) (seed : RNG)

/-- Every per-round trace of the loop (a state field to which each iteration
appends exactly one element) has length equal to the number of completed
rounds. -/
theorem trace_length {β : Type} (f : LoopState Dist Model Post P XT RNG → List β)
    (g : LoopState Dist Model Post P XT RNG → β)
    (hf : ∀ s, f (step L xo ns s) = f s ++ [g s])
    (h0 : f (initState prior seed) = []) (n : Nat) :
    (f (stateAt L xo ns prior seed n)).length = n := by
  induction n with
  | zero => rw [stateAt_zero, h0]; rfl
  | succ n ih => rw [stateAt_succ, hf, List.length_append, ih]; rfl

/-- Pointwise characterisation of a per-round trace: its element at index
`i` is the value computed by round `i + 1`, i.e. `g` applied to the state
after `i` completed rounds. -/
theorem trace_getElem {β : Type} (f : LoopState Dist Model Post P XT RNG → List β)
    (g : LoopState Dist Model Post P XT RNG → β)
    (hf : ∀ s, f (step L xo ns s) = f s ++ [g s])
    (h0 : f (initState prior seed) = []) (n i : Nat) (h : i < n) :
    (f (stateAt L xo ns prior seed n))[i]? = some (g (stateAt L xo ns prior seed i)) := by
  induction n with
  | zero => omega
  | succ n ih =>
    rw [stateAt_succ, hf]
    rcases Nat.lt_or_ge i n with h' | h'
    · rw [List.getElem?_append_left]
      · exact ih h'
      · rw [trace_length L xo ns prior seed f g hf h0 n]; exact h'
    · have hi : i = n := by omega
      subst hi
      have hlen := trace_length L xo ns prior seed f g hf h0 i
      have hc := List.getElem?_concat_length
        (f (stateAt L xo ns prior seed i)) (g (stateAt L xo ns prior seed i))
      rw [hlen] at hc
      exact hc

theorem proposalsUsed_length (n : Nat) :
    (stateAt L xo ns prior seed n).proposalsUsed.length = n :=
  trace_length L xo ns prior seed (fun s => s.proposalsUsed) (fun s => s.proposal)
    (fun _ => rfl) rfl n

theorem posteriors_length (n : Nat) :
    (stateAt L xo ns prior seed n).posteriors.length = n :=
  trace_length L xo ns prior seed (fun s => s.posteriors) (newPosterior L ns)
    (fun _ => rfl) rfl n

theorem models_length (n : Nat) :
    (stateAt L xo ns prior seed n).models.length = n :=
  trace_length L xo ns prior seed (fun s => s.models) (fun s => (newModel L ns s).1)
    (fun _ => rfl) rfl n

theorem dataset_length (n : Nat) :
    (stateAt L xo ns prior seed n).dataset.length = n :=
  trace_length L xo ns prior seed (fun s => s.dataset) (roundRecord L ns)
    (fun _ => rfl) rfl n

theorem trainedOn_length (n : Nat) :
    (stateAt L xo ns prior seed n).trainedOn.length = n :=
  trace_length L xo ns prior seed (fun s => s.trainedOn) (newDataset L ns)
    (fun _ => rfl) rfl n

theorem proposalsUsed_getElem (n i : Nat) (h : i < n) :
    (stateAt L xo ns prior seed n).proposalsUsed[i]? =
      some (stateAt L xo ns prior seed i).proposal :=
  trace_getElem L xo ns prior seed (fun s => s.proposalsUsed) (fun s => s.proposal)
    (fun _ => rfl) rfl n i h

theorem posteriors_getElem (n i : Nat) (h : i < n) :
    (stateAt L xo ns prior seed n).posteriors[i]? =
      some (newPosterior L ns (stateAt L xo ns prior seed i)) :=
  trace_getElem L xo ns prior seed (fun s => s.posteriors) (newPosterior L ns)
    (fun _ => rfl) rfl n i h

theorem models_getElem (n i : Nat) (h : i < n) :
    (stateAt L xo ns prior seed n).models[i]? =
      some (newModel L ns (stateAt L xo ns prior seed i)).1 :=
  trace_getElem L xo ns prior seed (fun s => s.models) (fun s => (newModel L ns s).1)
    (fun _ => rfl) rfl n i h

theorem dataset_getElem (n i : Nat) (h : i < n) :
    (stateAt L xo ns prior seed n).dataset[i]? =
      some (roundRecord L ns (stateAt L xo ns prior seed i)) :=
  trace_getElem L xo ns prior seed (fun s => s.dataset) (roundRecord L ns)
    (fun _ => rfl) rfl n i h

theorem trainedOn_getElem (n i : Nat) (h : i < n) :
    (stateAt L xo ns prior seed n).trainedOn[i]? =
      some (newDataset L ns (stateAt L xo ns prior seed i)) :=
  trace_getElem L xo ns prior seed (fun s => s.trainedOn) (newDataset L ns)
    (fun _ => rfl) rfl n i h

/-- The dataset after round `i + 1` is exactly the dataset formed by round
`i + 1`'s `append_simulations` call. -/
theorem dataset_succ (i : Nat) :
    (stateAt L xo ns prior seed (i + 1)).dataset =
      newDataset L ns (stateAt L xo ns prior seed i) := by
  rw [stateAt_succ]; rfl

/-- The proposal variable after round `i + 1` is the posterior built in
round `i + 1`, conditioned on the target observation. -/
theorem proposal_succ (i : Nat) :
    (stateAt L xo ns prior seed (i + 1)).proposal =
      L.set_default_x (newPosterior L ns (stateAt L xo ns prior seed i)) xo := by
  rw [stateAt_succ]; rfl

theorem proposal_zero : (stateAt L xo ns prior seed 0).proposal = prior := rfl

end Traces

/-- A concrete executable instance of the library interface over `Nat`
distributions, models, posteriors, parameters, observations and RNG states,
used to evaluate the loop at explicit inputs. -/
def natLib : SBILibrary Nat Nat Nat Nat Nat Nat where
  simulate_for_sbi := fun d n r => ((List.replicate n d, List.replicate n (d + r)), r + 1)
  train := fun ds r => (ds.length, r + 2)
  build_posterior := fun m => 2 * m + 1
  set_default_x := fun p x => p + x + 3

/-- C1: in the round-controller loop, the proposal used in round 1 (index 0
of the round-order trace) is the prior, and for every round `i + 1` with
`i ≥ 1` the proposal used is exactly the posterior built in the previous
round with its default observation set (`set_default_x`) to the fixed target
observation `xo`. -/
theorem proposal_schedule (L : SBILibrary Dist Model Post P XT RNG) (xo : XT)
    (ns : Nat) (prior : Dist) (seed : RNG) (R : Nat) (hR : 1 ≤ R) :
    (stateAt L xo ns prior seed R).proposalsUsed[0]? = some prior ∧
    ∀ i, 1 ≤ i → i < R →
      (stateAt L xo ns prior seed R).proposalsUsed[i]? =
        ((stateAt L xo ns prior seed R).posteriors[i - 1]?).map
          (fun p => L.set_default_x p xo) := by
  constructor
  · rw [proposalsUsed_getElem L xo ns prior seed R 0 hR]
    rfl
  · intro i h1 h2
    obtain ⟨j, rfl⟩ : ∃ j, i = j + 1 := ⟨i - 1, by omega⟩
    rw [proposalsUsed_getElem L xo ns prior seed R (j + 1) h2]
    simp only [Nat.add_sub_cancel]
    rw [posteriors_getElem L xo ns prior seed R j (by omega), proposal_succ]
    rfl

theorem proposal_schedule_witness :
    (stateAt natLib 0 2 5 0 2).proposalsUsed[0]? = some 5 ∧
    (stateAt natLib 0 2 5 0 2).proposalsUsed[1]? =
      ((stateAt natLib 0 2 5 0 2).posteriors[0]?).map
        (fun p => natLib.set_default_x p 0) :=
  ⟨(proposal_schedule natLib 0 2 5 0 2 (by decide)).1,
   (proposal_schedule natLib 0 2 5 0 2 (by decide)).2 1 (by decide) (by decide)⟩

/-- C2: running the loop for `R` rounds produces exactly `R` posterior
objects, appended in round order: the element at position `k` of the result
sequence is `build_posterior` of the density estimator trained in round
`k + 1` (i.e. after the round-`k+1` `train()` call over the accumulated
data). -/
theorem posterior_sequence (L : SBILibrary Dist Model Post P XT RNG) (xo : XT)
    (ns : Nat) (prior : Dist) (seed : RNG) (R : Nat) :
    (stateAt L xo ns prior seed R).posteriors.length = R ∧
    ∀ k, k < R →
      (stateAt L xo ns prior seed R).posteriors[k]? =
        some (L.build_posterior (newModel L ns (stateAt L xo ns prior seed k)).1) ∧
      (stateAt L xo ns prior seed R).models[k]? =
        some (newModel L ns (stateAt L xo ns prior seed k)).1 := by
  refine ⟨posteriors_length L xo ns prior seed R, fun k hk => ⟨?_, models_getElem L xo ns prior seed R k hk⟩⟩
  rw [posteriors_getElem L xo ns prior seed R k hk]
  rfl

theorem posterior_sequence_witness :
    (stateAt natLib 0 2 5 0 2).posteriors.length = 2 ∧
    (stateAt natLib 0 2 5 0 2).posteriors[1]? =
      some (natLib.build_posterior (newModel natLib 2 (stateAt natLib 0 2 5 0 1)).1) :=
  ⟨(posterior_sequence natLib 0 2 5 0 2).1,
   ((posterior_sequence natLib 0 2 5 0 2).2 1 (by decide)).1⟩

/-- C10: for every round, the dataset record stored by `append_simulations`
is exactly `(theta, x, proposal)` where `theta` and `x` are the output of
`simulate_for_sbi` applied to that very `proposal`: the stored proposal tag
is the distribution the batch was drawn from, because the `proposal`
variable is reassigned only after both calls.  Consequently the stored tags
coincide with the round-order trace of proposals passed to the sampler. -/
theorem proposal_tag_matches (L : SBILibrary Dist Model Post P XT RNG) (xo : XT)
    (ns : Nat) (prior : Dist) (seed : RNG) (R : Nat) :
    ∀ i, i < R →
      (stateAt L xo ns prior seed R).dataset[i]? =
        some ((L.simulate_for_sbi (stateAt L xo ns prior seed i).proposal ns
                 (stateAt L xo ns prior seed i).rng).1.1,
              (L.simulate_for_sbi (stateAt L xo ns prior seed i).proposal ns
                 (stateAt L xo ns prior seed i).rng).1.2,
              (stateAt L xo ns prior seed i).proposal) ∧
      ((stateAt L xo ns prior seed R).dataset[i]?).map (fun r => r.2.2) =
        (stateAt L xo ns prior seed R).proposalsUsed[i]? := by
  intro i hi
  constructor
  · rw [dataset_getElem L xo ns prior seed R i hi]
    rfl
  · rw [dataset_getElem L xo ns prior seed R i hi,
        proposalsUsed_getElem L xo ns prior seed R i hi]
    rfl

theorem proposal_tag_matches_witness :
    ((stateAt natLib 0 2 5 0 2).dataset[1]?).map (fun r => r.2.2) =
      (stateAt natLib 0 2 5 0 2).proposalsUsed[1]? :=
  ((proposal_tag_matches natLib 0 2 5 0 2) 1 (by decide)).2

/-- C6: the loop executes exactly `R` iterations for every library instance,
target observation, batch size, prior and seed: the iteration count is the
fixed round count, independent of the sampled data, the trained models and
the posteriors, with no convergence criterion and no early stopping. -/
theorem fixed_iteration_count (L : SBILibrary Dist Model Post P XT RNG)
    (xo : XT) (ns : Nat) (prior : Dist) (seed : RNG) (R : Nat) :
    (stateAt L xo ns prior seed R).iterations = R := by
  induction R with
  | zero => rfl
  | succ R ih => rw [stateAt_succ]; simp only [step]; rw [ih]

/-- C4: the loop is a pure function of its inputs: with a deterministic
simulator (the library is a function of its arguments and the explicit RNG
state) and a fixed seed, two runs with identical target observation, round
count, batch size, prior and seed produce identical accumulated datasets and
identical posterior sequences. -/
theorem run_deterministic (L : SBILibrary Dist Model Post P XT RNG)
    (xo₁ xo₂ : XT) (ns₁ ns₂ R₁ R₂ : Nat) (prior₁ prior₂ : Dist)
    (seed₁ seed₂ : RNG)
    (hx : xo₁ = xo₂) (hn : ns₁ = ns₂) (hR : R₁ = R₂)
    (hp : prior₁ = prior₂) (hs : seed₁ = seed₂) :
    (stateAt L xo₁ ns₁ prior₁ seed₁ R₁).dataset =
      (stateAt L xo₂ ns₂ prior₂ seed₂ R₂).dataset ∧
    (stateAt L xo₁ ns₁ prior₁ seed₁ R₁).posteriors =
      (stateAt L xo₂ ns₂ prior₂ seed₂ R₂).posteriors := by
  subst hx hn hR hp hs
  exact ⟨rfl, rfl⟩

theorem run_deterministic_witness :
    (stateAt natLib 0 2 5 0 2).dataset = (stateAt natLib 0 2 5 0 2).dataset ∧
    (stateAt natLib 0 2 5 0 2).posteriors = (stateAt natLib 0 2 5 0 2).posteriors :=
  run_deterministic natLib 0 0 2 2 2 2 5 5 0 0 rfl rfl rfl rfl rfl

/-- Total number of `(parameter, observation)` pairs in an accumulated
dataset: the sum over its round records of the parameter-batch lengths. -/
def datasetSize (s : LoopState Dist Model Post P XT RNG) : Nat :=
  (s.dataset.map fun r => r.1.length).sum

theorem newDataset_eq (L : SBILibrary Dist Model Post P XT RNG) (ns : Nat)
    (s : LoopState Dist Model Post P XT RNG) :
    newDataset L ns s = s.dataset ++ [roundRecord L ns s] := rfl

/-- C3: the accumulated dataset only grows — after `R` rounds its first `k`
records are exactly the dataset after round `k`, nothing is discarded — and
when the sampler honours the requested batch size, the number of
`(parameter, observation)` pairs after round `k` is `k * ns`, the sum of the
per-round batch sizes of rounds `1..k`; moreover every round's `train()`
call runs over the full dataset accumulated through that round. -/
theorem dataset_accumulation (L : SBILibrary Dist Model Post P XT RNG)
    (xo : XT) (ns : Nat) (prior : Dist) (seed : RNG) (R : Nat)
    (hsim : ∀ (d : Dist) (n : Nat) (r : RNG),
      ((L.simulate_for_sbi d n r).1.1).length = n) :
    (∀ k, k ≤ R → (stateAt L xo ns prior seed R).dataset.take k =
      (stateAt L xo ns prior seed k).dataset) ∧
    (∀ k, datasetSize (stateAt L xo ns prior seed k) = k * ns) ∧
    (∀ k, k < R → (stateAt L xo ns prior seed R).trainedOn[k]? =
      some ((stateAt L xo ns prior seed (k + 1)).dataset)) := by
  refine ⟨?_, ?_, ?_⟩
  · induction R with
    | zero =>
      intro k hk
      interval_cases k
      rfl
    | succ R ih =>
      intro k hk
      rw [dataset_succ, newDataset_eq]
      rcases Nat.lt_or_ge k (R + 1) with h' | h'
      · rw [List.take_append_of_le_length]
        · exact ih k (by omega)
        · rw [dataset_length]; omega
      · have hk' : k = R + 1 := by omega
        subst hk'
        rw [List.take_of_length_le, ← newDataset_eq, ← dataset_succ]
        rw [List.length_append, dataset_length]
        simp
  · intro k
    induction k with
    | zero => simp [datasetSize, stateAt_zero, initState]
    | succ k ih =>
      unfold datasetSize
      rw [dataset_succ, newDataset_eq, List.map_append, List.sum_append]
      unfold datasetSize at ih
      rw [ih]
      simp only [List.map_cons, List.map_nil, List.sum_cons, List.sum_nil]
      rw [show (roundRecord L ns (stateAt L xo ns prior seed k)).1 =
        (L.simulate_for_sbi (stateAt L xo ns prior seed k).proposal ns
          (stateAt L xo ns prior seed k).rng).1.1 from rfl]
      rw [hsim]
      ring
  · intro k hk
    rw [trainedOn_getElem L xo ns prior seed R k hk, dataset_succ]

theorem dataset_accumulation_witness :
    datasetSize (stateAt natLib 0 2 5 0 2) = 2 * 2 ∧
    (stateAt natLib 0 2 5 0 3).dataset.take 2 = (stateAt natLib 0 2 5 0 2).dataset :=
  ⟨(dataset_accumulation natLib 0 2 5 0 2
      (fun d n _ => List.length_replicate n d)).2.1 2,
   (dataset_accumulation natLib 0 2 5 0 3
      (fun d n _ => List.length_replicate n d)).1 2 (by decide)⟩

/-- Single-round (amortized) inference as the spec describes it: draw one
batch of parameters from the prior, simulate the corresponding data, run one
`train()` call on just that batch, and build one posterior from the trained
model. -/
def singleRoundPosterior (L : SBILibrary Dist Model Post P XT RNG)
    (prior : Dist) (ns : Nat) (seed : RNG) : Post :=
  let sim := L.simulate_for_sbi prior ns seed
  L.build_posterior (L.train [(sim.1.1, sim.1.2, prior)] sim.2).1

/-- C5: with round count 1 the loop is single-round (amortized) inference:
the only proposal ever passed to the sampler is the prior, exactly one
`train()` call occurs, and the produced posterior sequence is the single
posterior of single-round inference. -/
theorem single_round_reduction (L : SBILibrary Dist Model Post P XT RNG)
    (xo : XT) (ns : Nat) (prior : Dist) (seed : RNG) :
    (stateAt L xo ns prior seed 1).posteriors = [singleRoundPosterior L prior ns seed] ∧
    (stateAt L xo ns prior seed 1).proposalsUsed = [prior] ∧
    (stateAt L xo ns prior seed 1).models.length = 1 ∧
    (stateAt L xo ns prior seed 1).trainedOn.length = 1 :=
  ⟨rfl, rfl, rfl, rfl⟩

end MultiRound

namespace LinearGaussianExample

/-- The notebook's simulator `linear_gaussian(theta) = theta + 1.0 +
torch.randn_like(theta) * 0.1`, with the standard-normal draw
`torch.randn_like(theta)` made an explicit argument `eps`; parameters are
3-dimensional vectors and arithmetic is elementwise. -/
def linear_gaussian (theta eps : Fin 3 → ℚ) : Fin 3 → ℚ :=
  fun i => theta i + 1.0 + eps i * 0.1

/-- C7: for every parameter vector `theta` and noise draw `eps`, the
simulator returns `theta + 1.0 + 0.1 * eps` elementwise: observation =
parameter + constant + noise, with constant `1.0` and noise scale `0.1`, in
each of the 3 coordinates. -/
theorem linear_gaussian_spec (theta eps : Fin 3 → ℚ) (i : Fin 3) :
    linear_gaussian theta eps i = theta i + 1 + (1 / 10) * eps i := by
  unfold linear_gaussian
  norm_num
  ring

end LinearGaussianExample

namespace MultiRound

/-- Fallible variant of the library interface: every call into the external
library may raise an exception of type `E`. -/
structure SBILibraryE (E Dist Model Post P XT RNG : Type) where
  simulate_for_sbi : Dist → Nat → RNG → Except E ((List P × List XT) × RNG)
  train : List (List P × List XT × Dist) → RNG → Except E (Model × RNG)
  build_posterior : Model → Except E Post
  set_default_x : Post → XT → Dist

/-- Loop state for the fallible variant: the notebook's mutable variables
(accumulated dataset, result list, current proposal, RNG state). -/
structure LoopStateE (Dist Model Post P XT RNG : Type) where
  dataset : List (List P × List XT × Dist)
  posteriors : List Post
  proposal : Dist
  rng : RNG

variable {E Dist Model Post P XT RNG : Type}

/-- One iteration of the round loop with exceptions, stopping where Python
would: a failing `simulate_for_sbi` leaves the state untouched; a failing
`train()` comes after `append_simulations` has already extended the dataset;
a failing `build_posterior` additionally leaves the RNG advanced by the
trainer.  In every failing case the `posteriors` list is exactly the one
accumulated by the completed rounds, since `posteriors.append` runs only
after all three calls succeed. -/
def stepE (L : SBILibraryE E Dist Model Post P XT RNG) (xo : XT) (ns : Nat)
    (s : LoopStateE Dist Model Post P XT RNG) :
    Except (E × LoopStateE Dist Model Post P XT RNG)
      (LoopStateE Dist Model Post P XT RNG) :=
  match L.simulate_for_sbi s.proposal ns s.rng with
  | .error e => .error (e, s)
  | .ok ((theta, x), r1) =>
    match L.train (append_simulations s.dataset theta x s.proposal) r1 with
    | .error e =>
      .error (e, { s with dataset := append_simulations s.dataset theta x s.proposal
                          rng := r1 })
    | .ok (de, r2) =>
      match L.build_posterior de with
      | .error e =>
        .error (e, { s with dataset := append_simulations s.dataset theta x s.proposal
                            rng := r2 })
      | .ok posterior =>
        .ok { dataset := append_simulations s.dataset theta x s.proposal
              posteriors := s.posteriors ++ [posterior]
              proposal := L.set_default_x posterior xo
              rng := r2 }

/-- Run `n` iterations of the fallible round loop; the first exception
aborts the loop and propagates. -/
def runE (L : SBILibraryE E Dist Model Post P XT RNG) (xo : XT) (ns : Nat) :
    Nat → LoopStateE Dist Model Post P XT RNG →
      Except (E × LoopStateE Dist Model Post P XT RNG)
        (LoopStateE Dist Model Post P XT RNG)
  | 0, s => .ok s
  | n + 1, s =>
    match stepE L xo ns s with
    | .error p => .error p
    | .ok s' => runE L xo ns n s'

theorem stepE_posteriors_of_error (L : SBILibraryE E Dist Model Post P XT RNG)
    (xo : XT) (ns : Nat) (s s' : LoopStateE Dist Model Post P XT RNG) (e : E)
    (h : stepE L xo ns s = .error (e, s')) : s'.posteriors = s.posteriors := by
  unfold stepE at h
  rcases h1 : L.simulate_for_sbi s.proposal ns s.rng with e1 | v1
  · simp only [h1, Except.error.injEq, Prod.mk.injEq] at h
    rw [← h.2]
  · obtain ⟨⟨theta, x⟩, r1⟩ := v1
    simp only [h1] at h
    rcases h2 : L.train (append_simulations s.dataset theta x s.proposal) r1 with e2 | v2
    · simp only [h2, Except.error.injEq, Prod.mk.injEq] at h
      rw [← h.2]
    · obtain ⟨de, r2⟩ := v2
      simp only [h2] at h
      rcases h3 : L.build_posterior de with e3 | posterior
      · simp only [h3, Except.error.injEq, Prod.mk.injEq] at h
        rw [← h.2]
      · simp only [h3] at h
        exact Except.noConfusion h

theorem runE_succ (L : SBILibraryE E Dist Model Post P XT RNG) (xo : XT)
    (ns n : Nat) (s : LoopStateE Dist Model Post P XT RNG) :
    runE L xo ns (n + 1) s =
      match stepE L xo ns s with
      | .error p => .error p
      | .ok s' => runE L xo ns n s' := rfl

theorem runE_add_ok (L : SBILibraryE E Dist Model Post P XT RNG) (xo : XT)
    (ns a b : Nat) (s s₂ : LoopStateE Dist Model Post P XT RNG)
    (h : runE L xo ns a s = .ok s₂) :
    runE L xo ns (a + b) s = runE L xo ns b s₂ := by
  induction a generalizing s with
  | zero =>
    unfold runE at h
    injection h with h
    subst h
    rw [Nat.zero_add]
  | succ a ih =>
    rw [show a + 1 + b = a + b + 1 from by omega, runE_succ]
    rw [runE_succ] at h
    rcases hs : stepE L xo ns s with p | s' <;> simp only [hs] at h ⊢
    · exact Except.noConfusion h
    · exact ih s' h

theorem runE_succ_error (L : SBILibraryE E Dist Model Post P XT RNG) (xo : XT)
    (ns m : Nat) (s : LoopStateE Dist Model Post P XT RNG)
    (p : E × LoopStateE Dist Model Post P XT RNG)
    (h : stepE L xo ns s = .error p) :
    runE L xo ns (m + 1) s = .error p := by
  rw [runE_succ, h]

/-- C8: if the first `j` rounds succeed and the library raises exception `e`
during round `j + 1` — in the simulator, the trainer, or the posterior
builder — the round controller performs no recovery or retry: the whole run
returns exactly that error, and the posteriors accumulated by the completed
rounds `1..j` are left unchanged in the state at the moment of the
exception. -/
theorem error_propagation (L : SBILibraryE E Dist Model Post P XT RNG)
    (xo : XT) (ns j R : Nat)
    (s₀ sj serr : LoopStateE Dist Model Post P XT RNG) (e : E)
    (hok : runE L xo ns j s₀ = .ok sj)
    (hfail : stepE L xo ns sj = .error (e, serr))
    (hj : j < R) :
    runE L xo ns R s₀ = .error (e, serr) ∧ serr.posteriors = sj.posteriors := by
  constructor
  · obtain ⟨m, rfl⟩ : ∃ m, R = j + (m + 1) := ⟨R - j - 1, by omega⟩
    rw [runE_add_ok L xo ns j (m + 1) s₀ sj hok]
    exact runE_succ_error L xo ns m sj (e, serr) hfail
  · exact stepE_posteriors_of_error L xo ns sj serr e hfail

/-- A concrete executable fallible library whose trainer raises exception
`7` as soon as the accumulated dataset holds two or more round records, so
round 2 fails. -/
def natLibE : SBILibraryE Nat Nat Nat Nat Nat Nat Nat where
  simulate_for_sbi := fun d n r =>
    .ok ((List.replicate n d, List.replicate n (d + r)), r + 1)
  train := fun ds r => if 2 ≤ ds.length then .error 7 else .ok (ds.length, r + 1)
  build_posterior := fun m => .ok (m + 1)
  set_default_x := fun p x => p + x + 1

theorem error_propagation_witness :
    runE natLibE 0 1 3 ⟨[], [], 0, 0⟩ =
      .error (7, ⟨[([0], [0], 0), ([3], [5], 3)], [2], 3, 3⟩) ∧
    (⟨[([0], [0], 0), ([3], [5], 3)], [2], 3, 3⟩ :
        LoopStateE Nat Nat Nat Nat Nat Nat).posteriors =
      (⟨[([0], [0], 0)], [2], 3, 2⟩ :
        LoopStateE Nat Nat Nat Nat Nat Nat).posteriors :=
  error_propagation natLibE 0 1 1 3 ⟨[], [], 0, 0⟩ ⟨[([0], [0], 0)], [2], 3, 2⟩
    ⟨[([0], [0], 0), ([3], [5], 3)], [2], 3, 3⟩ 7 (by rfl) (by rfl) (by decide)

end MultiRound
